import Mathlib

/-!
Verification of the transaction-analyzer repository.

This file gives a shallow embedding of the parts of the program that the
claims are about, and settles the claims as theorems over that embedding.

Modelling conventions, used throughout:
* Machine floats of the Python source are modelled as exact rationals `ℚ`.
  Python `int(x)` on the nonnegative values that occur here is `Int.floor`.
* A pandas `Timestamp` is modelled by `DateT`: `day` counts days from a
  Monday epoch (so `weekday = day % 7`, Monday = 0 as in pandas), and
  `hour` is the hour-of-day component (0 for date-only data, matching
  pandas midnight timestamps).
* A DataFrame of transactions is a `List Txn` whose fields are the Tiller
  columns; the derived columns of the pipeline are the functions
  `Txn.isExpense` (`Amount < 0`) and `Txn.absAmount` (`|Amount|`).
* `groupby` with the default `sort=True` enumerates keys in sorted order
  with duplicates removed; this is `sortedKeys`.
* Strings produced by f-string templates are modelled by inductive
  constructors or template strings carrying their arguments; the decimal
  formatting itself (`:.0f` etc.) is presentation only and is not modelled.
-/

namespace TransactionAnalyzer

/-- Timestamp of a transaction: `day` counts days from a Monday epoch,
`hour` is the hour-of-day component (0 when the source data is date-only). -/
structure DateT where
  day : ℕ
  hour : ℕ
deriving DecidableEq, Repr

/-- pandas `Timestamp.weekday`: Monday = 0, ..., Sunday = 6. -/
def DateT.weekday (d : DateT) : ℕ := d.day % 7

/-- One row of the processed transaction DataFrame (Tiller columns). -/
structure Txn where
  date : DateT
  description : String
  category : String
  amount : ℚ
deriving DecidableEq, Repr

/-- Derived column `Is_Expense = Amount < 0` (transaction_retriever.py line 94). -/
def Txn.isExpense (t : Txn) : Bool := decide (t.amount < 0)

/-- Derived column `Abs_Amount = Amount.abs()` (transaction_retriever.py line 95). -/
def Txn.absAmount (t : Txn) : ℚ := |t.amount|

/-- Sorted list of the distinct keys of a pandas `groupby` (default `sort=True`). -/
def sortedKeys {α : Type} [DecidableEq α] [LinearOrder α] (l : List α) : List α :=
  List.insertionSort (· ≤ ·) l.dedup

/-! ### config.py -/

/-- `config.DAILY_BUDGET_LIMITS` (config.py lines 36-45). -/
def DAILY_BUDGET_LIMITS : List (String × ℚ) :=
  [("Food & Dining", 50), ("Transportation", 30), ("Shopping", 40), ("Entertainment", 25),
   ("Utilities", 15), ("Healthcare", 20), ("Subscriptions", 10), ("Miscellaneous", 35)]

/-- `config.OVERSPENDING_THRESHOLD = 1.2` (config.py line 48). -/
def OVERSPENDING_THRESHOLD : ℚ := 12 / 10

/-- `config.WARNING_THRESHOLD = 0.8` (config.py line 49). -/
def WARNING_THRESHOLD : ℚ := 8 / 10

/-- `self.budget_limits.get(category, 0)` (overspending_analyzer.py line 47). -/
def budgetLimit (c : String) : ℚ := (DAILY_BUDGET_LIMITS.lookup c).getD 0

/-- `sum(self.budget_limits.values())` (overspending_analyzer.py lines 42, 204). -/
def totalBudget : ℚ := (DAILY_BUDGET_LIMITS.map Prod.snd).sum

/-! ### overspending_analyzer.py: per-category analysis -/

/-- `df[df['Is_Expense']]` (overspending_analyzer.py line 24). -/
def expensesOf (df : List Txn) : List Txn := df.filter Txn.isExpense

/-- Keys of `expenses.groupby('Category')` (overspending_analyzer.py line 27). -/
def categories (df : List Txn) : List String :=
  sortedKeys ((expensesOf df).map Txn.category)

/-- `expenses.groupby('Category')['Abs_Amount'].sum()` at one category. -/
def categorySpending (df : List Txn) (c : String) : ℚ :=
  (((expensesOf df).filter (fun t => t.category == c)).map Txn.absAmount).sum

/-- `len(expenses[expenses['Category'] == category])` (line 61). -/
def categoryTxCount (df : List Txn) (c : String) : ℕ :=
  ((expensesOf df).filter (fun t => t.category == c)).length

/-- `expenses['Abs_Amount'].sum()` (line 31). -/
def totalSpent (df : List Txn) : ℚ :=
  ((expensesOf df).map Txn.absAmount).sum

/-- `(spent / budget_limit) * 100` (line 52). -/
def percentageUsed (df : List Txn) (c : String) : ℚ :=
  categorySpending df c / budgetLimit c * 100

/-- `OverspendingAnalyzer._calculate_severity` (lines 171-180). -/
def calculateSeverity (pct : ℚ) : String :=
  if pct ≥ 200 then "Critical"
  else if pct ≥ 150 then "High"
  else if pct ≥ 120 then "Medium"
  else "Low"

/-- The status branch of the category loop (lines 64-78). -/
def catStatus (df : List Txn) (c : String) : String :=
  if percentageUsed df c ≥ OVERSPENDING_THRESHOLD * 100 then "OVERSPENDING"
  else if percentageUsed df c ≥ WARNING_THRESHOLD * 100 then "WARNING"
  else "WITHIN_BUDGET"

/-- The `category_analysis` dict built for one category (lines 55-78).
`severity` is only set on the OVERSPENDING and WARNING branches and
`savings` only on the WITHIN_BUDGET branch, hence the `Option`s. -/
structure CatAnalysis where
  category : String
  spent : ℚ
  budget : ℚ
  percentageUsed : ℚ
  overAmount : ℚ
  transactionCount : ℕ
  status : String
  severity : Option String
  savings : Option ℚ
deriving DecidableEq, Repr

/-- The `category_analysis` record for one category (lines 55-78). -/
def catAnalysis (df : List Txn) (c : String) : CatAnalysis :=
  { category := c
    spent := categorySpending df c
    budget := budgetLimit c
    percentageUsed := percentageUsed df c
    overAmount := categorySpending df c - budgetLimit c
    transactionCount := categoryTxCount df c
    status := catStatus df c
    severity :=
      if catStatus df c = "OVERSPENDING" then some (calculateSeverity (percentageUsed df c))
      else if catStatus df c = "WARNING" then some "Medium"
      else none
    savings :=
      if catStatus df c = "WITHIN_BUDGET" then some (budgetLimit c - categorySpending df c)
      else none }

/-- Categories surviving the `if budget_limit == 0: continue` guard (lines 47-50). -/
def configuredCats (df : List Txn) : List String :=
  (categories df).filter (fun c => !(budgetLimit c == 0))

/-- `analysis['overspending_alerts']` after the category loop (lines 65-68). -/
def overspendingAlertsOf (df : List Txn) : List CatAnalysis :=
  ((configuredCats df).filter (fun c => catStatus df c == "OVERSPENDING")).map (catAnalysis df)

/-- `analysis['warning_alerts']` after the category loop (lines 70-73). -/
def warningAlertsOf (df : List Txn) : List CatAnalysis :=
  ((configuredCats df).filter (fun c => catStatus df c == "WARNING")).map (catAnalysis df)

/-- `analysis['within_budget']` after the category loop (lines 75-78). -/
def withinBudgetOf (df : List Txn) : List CatAnalysis :=
  ((configuredCats df).filter (fun c => catStatus df c == "WITHIN_BUDGET")).map (catAnalysis df)

/-! ### overspending_analyzer.py: score, risk level, recommendations -/

/-- The per-alert deduction of `_calculate_spending_score` (lines 187-195). -/
def severityDeduction (sev : Option String) : ℤ :=
  if sev = some "Critical" then 30
  else if sev = some "High" then 20
  else if sev = some "Medium" then 15
  else 10

/-- The under-budget bonus of `_calculate_spending_score` (lines 203-207).
`int(x)` truncates toward zero; whenever the branch is taken the argument is
positive, so it is `Int.floor`. -/
def underBudgetBonus (spent : ℚ) : ℤ :=
  if totalBudget > 0 ∧ spent < totalBudget * (8 / 10) then
    min 15 ⌊(totalBudget - spent) / totalBudget * 20⌋
  else 0

/-- `OverspendingAnalyzer._calculate_spending_score` (lines 182-209). -/
def calculateSpendingScore (ov warn within : List CatAnalysis) (spent : ℚ) : ℤ :=
  min 100 (max 0
    (100 - (ov.map (fun a => severityDeduction a.severity)).sum
       - (warn.length : ℤ) * 5 + (within.length : ℤ) * 3 + underBudgetBonus spent))

/-- `OverspendingAnalyzer._determine_risk_level` (lines 211-222). -/
def determineRiskLevel (score : ℤ) : String :=
  if score ≥ 80 then "Excellent"
  else if score ≥ 60 then "Good"
  else if score ≥ 40 then "Fair"
  else if score ≥ 20 then "Poor"
  else "Critical"

/-- One recommendation string of `_generate_recommendations` (lines 250-293),
modelled as the template used together with its interpolated arguments. -/
inductive RecItem where
  | urgent (category : String) (pct : ℚ)
  | reduce (category : String) (overAmount : ℚ)
  | monitor (category : String) (pct : ℚ)
  | praise (category : String) (savings : ℚ)
  | tipHigh
  | tipMedium
  | noData
deriving DecidableEq, Repr

/-- Python `min(list, key=...)`: the first element with minimal key. -/
def minByPct (x : CatAnalysis) (xs : List CatAnalysis) : CatAnalysis :=
  xs.foldl (fun a b => if b.percentageUsed < a.percentageUsed then b else a) x

/-- `OverspendingAnalyzer._generate_recommendations` (lines 250-293). -/
def generateRecommendations (ov warn within : List CatAnalysis) (riskLevel : String) :
    List RecItem :=
  (ov.map (fun a =>
      if a.severity = some "Critical" then RecItem.urgent a.category a.percentageUsed
      else RecItem.reduce a.category a.overAmount))
  ++ (warn.map (fun a => RecItem.monitor a.category a.percentageUsed))
  ++ (match within with
      | [] => []
      | x :: xs => [RecItem.praise (minByPct x xs).category ((minByPct x xs).savings.getD 0)])
  ++ (if riskLevel = "High Risk" then [RecItem.tipHigh]
      else if riskLevel = "Medium Risk" then [RecItem.tipMedium]
      else [])

/-- The `analysis` dict returned by `analyze_daily_overspending`.
`date` is the `%Y-%m-%d` date of the first row (`none` stands for the
`'No Data'` placeholder of the empty analysis). -/
structure Analysis where
  date : Option ℕ
  totalSpent : ℚ
  totalTransactions : ℕ
  categoriesAnalyzed : ℕ
  overspendingAlerts : List CatAnalysis
  warningAlerts : List CatAnalysis
  withinBudget : List CatAnalysis
  recommendations : List RecItem
  spendingScore : ℤ
  riskLevel : String
deriving DecidableEq, Repr

/-- `OverspendingAnalyzer._empty_analysis` (lines 295-308). -/
def emptyAnalysis : Analysis :=
  { date := none
    totalSpent := 0
    totalTransactions := 0
    categoriesAnalyzed := 0
    overspendingAlerts := []
    warningAlerts := []
    withinBudget := []
    recommendations := [RecItem.noData]
    spendingScore := 0
    riskLevel := "Unknown" }

/-- `OverspendingAnalyzer.analyze_daily_overspending` (lines 19-87). -/
def analyzeDailyOverspending (df : List Txn) : Analysis :=
  match df with
  | [] => emptyAnalysis
  | t0 :: _ =>
    let ov := overspendingAlertsOf df
    let warn := warningAlertsOf df
    let within := withinBudgetOf df
    let score := calculateSpendingScore ov warn within (totalSpent df)
    let risk := determineRiskLevel score
    { date := some t0.date.day
      totalSpent := totalSpent df
      totalTransactions := (expensesOf df).length
      categoriesAnalyzed := (categories df).length
      overspendingAlerts := ov
      warningAlerts := warn
      withinBudget := within
      recommendations := generateRecommendations ov warn within risk
      spendingScore := score
      riskLevel := risk }

/-- Category names of the overspending alerts of an analysis. -/
def ovCategories (df : List Txn) : List String :=
  (analyzeDailyOverspending df).overspendingAlerts.map CatAnalysis.category

/-- Category names of the warning alerts of an analysis. -/
def warnCategories (df : List Txn) : List String :=
  (analyzeDailyOverspending df).warningAlerts.map CatAnalysis.category

/-- Category names of the within-budget entries of an analysis. -/
def wbCategories (df : List Txn) : List String :=
  (analyzeDailyOverspending df).withinBudget.map CatAnalysis.category

lemma analyze_overspendingAlerts (df : List Txn) :
    (analyzeDailyOverspending df).overspendingAlerts = overspendingAlertsOf df := by
  cases df <;> rfl

lemma analyze_warningAlerts (df : List Txn) :
    (analyzeDailyOverspending df).warningAlerts = warningAlertsOf df := by
  cases df <;> rfl

lemma analyze_withinBudget (df : List Txn) :
    (analyzeDailyOverspending df).withinBudget = withinBudgetOf df := by
  cases df <;> rfl

lemma map_category_catAnalysis (df : List Txn) (l : List String) :
    (l.map (catAnalysis df)).map CatAnalysis.category = l := by
  induction l with
  | nil => rfl
  | cons a t ih => simpa [catAnalysis] using ih

lemma mem_ovCategories (df : List Txn) (c : String) :
    c ∈ ovCategories df ↔
      c ∈ categories df ∧ ¬budgetLimit c = 0 ∧ catStatus df c = "OVERSPENDING" := by
  unfold ovCategories
  rw [analyze_overspendingAlerts, overspendingAlertsOf, map_category_catAnalysis]
  simp only [List.mem_filter, configuredCats, beq_iff_eq, Bool.not_eq_true', beq_eq_false_iff_ne,
    ne_eq, and_assoc]

lemma mem_warnCategories (df : List Txn) (c : String) :
    c ∈ warnCategories df ↔
      c ∈ categories df ∧ ¬budgetLimit c = 0 ∧ catStatus df c = "WARNING" := by
  unfold warnCategories
  rw [analyze_warningAlerts, warningAlertsOf, map_category_catAnalysis]
  simp only [List.mem_filter, configuredCats, beq_iff_eq, Bool.not_eq_true', beq_eq_false_iff_ne,
    ne_eq, and_assoc]

lemma mem_wbCategories (df : List Txn) (c : String) :
    c ∈ wbCategories df ↔
      c ∈ categories df ∧ ¬budgetLimit c = 0 ∧ catStatus df c = "WITHIN_BUDGET" := by
  unfold wbCategories
  rw [analyze_withinBudget, withinBudgetOf, map_category_catAnalysis]
  simp only [List.mem_filter, configuredCats, beq_iff_eq, Bool.not_eq_true', beq_eq_false_iff_ne,
    ne_eq, and_assoc]

lemma catStatus_trichotomy (df : List Txn) (c : String) :
    catStatus df c = "OVERSPENDING" ∨ catStatus df c = "WARNING" ∨
      catStatus df c = "WITHIN_BUDGET" := by
  unfold catStatus
  split_ifs <;> simp

lemma catStatus_over_iff (df : List Txn) (c : String) :
    catStatus df c = "OVERSPENDING" ↔
      OVERSPENDING_THRESHOLD * 100 ≤ percentageUsed df c := by
  unfold catStatus
  split_ifs with h1 h2
  · exact iff_of_true rfl h1
  · exact iff_of_false (by decide) h1
  · exact iff_of_false (by decide) h1

lemma catStatus_warn_iff (df : List Txn) (c : String) :
    catStatus df c = "WARNING" ↔
      WARNING_THRESHOLD * 100 ≤ percentageUsed df c ∧
      percentageUsed df c < OVERSPENDING_THRESHOLD * 100 := by
  unfold catStatus
  split_ifs with h1 h2
  · exact iff_of_false (by decide) (fun h => absurd h.2 (not_lt.mpr h1))
  · exact iff_of_true rfl ⟨h2, not_le.mp h1⟩
  · exact iff_of_false (by decide) (fun h => h2 h.1)

lemma catStatus_within_iff (df : List Txn) (c : String) :
    catStatus df c = "WITHIN_BUDGET" ↔ percentageUsed df c < WARNING_THRESHOLD * 100 := by
  have hwo : WARNING_THRESHOLD * 100 ≤ OVERSPENDING_THRESHOLD * 100 := by
    norm_num [WARNING_THRESHOLD, OVERSPENDING_THRESHOLD]
  unfold catStatus
  split_ifs with h1 h2
  · exact iff_of_false (by decide) (fun h => (h.trans_le hwo).not_le h1)
  · exact iff_of_false (by decide) (not_lt.mpr h2)
  · exact iff_of_true rfl (not_le.mp h2)

/-- C1: for every category present in the batch with a nonzero budget limit,
membership in the three alert lists is decided solely by
`percentage_used` against the two thresholds — at the exact boundary,
`percentage_used = warning_threshold*100` is a WARNING and
`percentage_used = overspending_threshold*100` is OVERSPENDING — the
category lands in exactly one of the three lists, and categories whose
looked-up budget limit is 0 (in particular unconfigured ones) land in none. -/
theorem C1_category_status_trichotomy (df : List Txn) (c : String)
    (hc : c ∈ categories df) :
    (budgetLimit c = 0 →
      c ∉ ovCategories df ∧ c ∉ warnCategories df ∧ c ∉ wbCategories df) ∧
    (¬budgetLimit c = 0 →
      ((c ∈ ovCategories df ↔ OVERSPENDING_THRESHOLD * 100 ≤ percentageUsed df c) ∧
       (c ∈ warnCategories df ↔
          WARNING_THRESHOLD * 100 ≤ percentageUsed df c ∧
          percentageUsed df c < OVERSPENDING_THRESHOLD * 100) ∧
       (c ∈ wbCategories df ↔ percentageUsed df c < WARNING_THRESHOLD * 100) ∧
       (c ∈ ovCategories df ∨ c ∈ warnCategories df ∨ c ∈ wbCategories df) ∧
       ¬(c ∈ ovCategories df ∧ c ∈ warnCategories df) ∧
       ¬(c ∈ ovCategories df ∧ c ∈ wbCategories df) ∧
       ¬(c ∈ warnCategories df ∧ c ∈ wbCategories df))) := by
  constructor
  · intro hb0
    refine ⟨?_, ?_, ?_⟩
    · rw [mem_ovCategories]; rintro ⟨-, hb, -⟩; exact hb hb0
    · rw [mem_warnCategories]; rintro ⟨-, hb, -⟩; exact hb hb0
    · rw [mem_wbCategories]; rintro ⟨-, hb, -⟩; exact hb hb0
  · intro hb
    have Hov : c ∈ ovCategories df ↔ catStatus df c = "OVERSPENDING" := by
      rw [mem_ovCategories]; simp [hc, hb]
    have Hw : c ∈ warnCategories df ↔ catStatus df c = "WARNING" := by
      rw [mem_warnCategories]; simp [hc, hb]
    have Hwb : c ∈ wbCategories df ↔ catStatus df c = "WITHIN_BUDGET" := by
      rw [mem_wbCategories]; simp [hc, hb]
    refine ⟨Hov.trans (catStatus_over_iff df c), Hw.trans (catStatus_warn_iff df c),
      Hwb.trans (catStatus_within_iff df c), ?_, ?_, ?_, ?_⟩
    · rcases catStatus_trichotomy df c with h | h | h
      · exact Or.inl (Hov.mpr h)
      · exact Or.inr (Or.inl (Hw.mpr h))
      · exact Or.inr (Or.inr (Hwb.mpr h))
    · rintro ⟨h1, h2⟩
      rw [Hov] at h1; rw [Hw, h1] at h2; exact absurd h2 (by decide)
    · rintro ⟨h1, h2⟩
      rw [Hov] at h1; rw [Hwb, h1] at h2; exact absurd h2 (by decide)
    · rintro ⟨h1, h2⟩
      rw [Hw] at h1; rw [Hwb, h1] at h2; exact absurd h2 (by decide)

/-- Concrete one-row batch used as the witness input for C1. -/
def wC1df : List Txn := [{ date := ⟨0, 10⟩, description := "Target store", category := "Shopping", amount := -10 }]

/-- Witness for C1 at a concrete batch: "Shopping" is present, its budget
limit is nonzero, and the theorem's trichotomy holds for it. -/
theorem C1_category_status_trichotomy_witness :
    "Shopping" ∈ categories wC1df ∧
    ((budgetLimit "Shopping" = 0 →
      "Shopping" ∉ ovCategories wC1df ∧ "Shopping" ∉ warnCategories wC1df ∧
        "Shopping" ∉ wbCategories wC1df) ∧
    (¬budgetLimit "Shopping" = 0 →
      (("Shopping" ∈ ovCategories wC1df ↔
          OVERSPENDING_THRESHOLD * 100 ≤ percentageUsed wC1df "Shopping") ∧
       ("Shopping" ∈ warnCategories wC1df ↔
          WARNING_THRESHOLD * 100 ≤ percentageUsed wC1df "Shopping" ∧
          percentageUsed wC1df "Shopping" < OVERSPENDING_THRESHOLD * 100) ∧
       ("Shopping" ∈ wbCategories wC1df ↔
          percentageUsed wC1df "Shopping" < WARNING_THRESHOLD * 100) ∧
       ("Shopping" ∈ ovCategories wC1df ∨ "Shopping" ∈ warnCategories wC1df ∨
          "Shopping" ∈ wbCategories wC1df) ∧
       ¬("Shopping" ∈ ovCategories wC1df ∧ "Shopping" ∈ warnCategories wC1df) ∧
       ¬("Shopping" ∈ ovCategories wC1df ∧ "Shopping" ∈ wbCategories wC1df) ∧
       ¬("Shopping" ∈ warnCategories wC1df ∧ "Shopping" ∈ wbCategories wC1df)))) :=
  ⟨by decide, C1_category_status_trichotomy wC1df "Shopping" (by decide)⟩

/-- Spec-side restatement of the overspending deductions: 30/20/15/10 per
overspending category with severity Critical/High/Medium/Low, the severity
read off the percentage thresholds directly. -/
def specOverspendingDeduction (df : List Txn) : ℤ :=
  (((configuredCats df).filter
      (fun c => decide (percentageUsed df c ≥ OVERSPENDING_THRESHOLD * 100))).map
    (fun c =>
      if percentageUsed df c ≥ 200 then (30 : ℤ)
      else if percentageUsed df c ≥ 150 then 20
      else if percentageUsed df c ≥ 120 then 15
      else 10)).sum

/-- Spec-side count of WARNING categories, by threshold arithmetic. -/
def specWarningCount (df : List Txn) : ℕ :=
  ((configuredCats df).filter
    (fun c => decide (percentageUsed df c ≥ WARNING_THRESHOLD * 100 ∧
      percentageUsed df c < OVERSPENDING_THRESHOLD * 100))).length

/-- Spec-side count of WITHIN_BUDGET categories, by threshold arithmetic. -/
def specWithinCount (df : List Txn) : ℕ :=
  ((configuredCats df).filter
    (fun c => decide (percentageUsed df c < WARNING_THRESHOLD * 100))).length

lemma totalBudget_val : totalBudget = 225 := by
  norm_num [totalBudget, DAILY_BUDGET_LIMITS]

lemma totalBudget_pos : (0 : ℚ) < totalBudget := by
  rw [totalBudget_val]; norm_num

lemma sevDeduction_eq (df : List Txn) (c : String) (h : catStatus df c = "OVERSPENDING") :
    severityDeduction (catAnalysis df c).severity =
      (if percentageUsed df c ≥ 200 then (30 : ℤ)
       else if percentageUsed df c ≥ 150 then 20
       else if percentageUsed df c ≥ 120 then 15
       else 10) := by
  by_cases h200 : percentageUsed df c ≥ 200
  · simp [catAnalysis, h, calculateSeverity, severityDeduction, h200]
  · by_cases h150 : percentageUsed df c ≥ 150
    · simp [catAnalysis, h, calculateSeverity, severityDeduction, h200, h150]
    · by_cases h120 : percentageUsed df c ≥ 120
      · simp [catAnalysis, h, calculateSeverity, severityDeduction, h200, h150, h120]
      · simp [catAnalysis, h, calculateSeverity, severityDeduction, h200, h150, h120]

lemma ov_filter_eq (df : List Txn) :
    (configuredCats df).filter (fun c => catStatus df c == "OVERSPENDING") =
      (configuredCats df).filter
        (fun c => decide (percentageUsed df c ≥ OVERSPENDING_THRESHOLD * 100)) :=
  List.filter_congr fun c _ =>
    Bool.eq_iff_iff.mpr (by simp [catStatus_over_iff, ge_iff_le])

lemma warn_filter_eq (df : List Txn) :
    (configuredCats df).filter (fun c => catStatus df c == "WARNING") =
      (configuredCats df).filter
        (fun c => decide (percentageUsed df c ≥ WARNING_THRESHOLD * 100 ∧
          percentageUsed df c < OVERSPENDING_THRESHOLD * 100)) :=
  List.filter_congr fun c _ =>
    Bool.eq_iff_iff.mpr (by simp [catStatus_warn_iff, ge_iff_le])

lemma wb_filter_eq (df : List Txn) :
    (configuredCats df).filter (fun c => catStatus df c == "WITHIN_BUDGET") =
      (configuredCats df).filter
        (fun c => decide (percentageUsed df c < WARNING_THRESHOLD * 100)) :=
  List.filter_congr fun c _ =>
    Bool.eq_iff_iff.mpr (by simp [catStatus_within_iff])

lemma ov_deduction_sum (df : List Txn) :
    ((overspendingAlertsOf df).map (fun a => severityDeduction a.severity)).sum =
      specOverspendingDeduction df := by
  unfold overspendingAlertsOf specOverspendingDeduction
  rw [List.map_map, ov_filter_eq]
  refine congrArg List.sum (List.map_congr_left fun c hc => ?_)
  have hm := List.mem_filter.mp hc
  have hp : percentageUsed df c ≥ OVERSPENDING_THRESHOLD * 100 := by
    simpa using hm.2
  exact sevDeduction_eq df c ((catStatus_over_iff df c).mpr hp)

lemma warn_length_eq (df : List Txn) :
    (warningAlertsOf df).length = specWarningCount df := by
  unfold warningAlertsOf specWarningCount
  rw [List.length_map, warn_filter_eq]

lemma wb_length_eq (df : List Txn) :
    (withinBudgetOf df).length = specWithinCount df := by
  unfold withinBudgetOf specWithinCount
  rw [List.length_map, wb_filter_eq]

lemma underBudgetBonus_eq (spent : ℚ) :
    underBudgetBonus spent =
      (if spent < totalBudget * (8 / 10) then
        min 15 ⌊(totalBudget - spent) / totalBudget * 20⌋
      else 0) := by
  simp [underBudgetBonus, totalBudget_pos]

/-- C2: the spending score always lies in [0,100]; for a non-empty batch it
is exactly the clamp to [0,100] of 100 minus 30/20/15/10 per overspending
category by severity, minus 5 per warning category, plus 3 per
within-budget category, plus the under-budget bonus
`min 15 ⌊under-spend fraction * 20⌋` when total spent is below 80% of the
summed budget limits. -/
theorem C2_spending_score_formula (df : List Txn) :
    0 ≤ (analyzeDailyOverspending df).spendingScore ∧
    (analyzeDailyOverspending df).spendingScore ≤ 100 ∧
    (df ≠ [] →
      (analyzeDailyOverspending df).spendingScore =
        min 100 (max 0
          (100 - specOverspendingDeduction df - (specWarningCount df : ℤ) * 5
            + (specWithinCount df : ℤ) * 3
            + (if totalSpent df < totalBudget * (8 / 10) then
                min 15 ⌊(totalBudget - totalSpent df) / totalBudget * 20⌋
              else 0)))) := by
  rcases df with _ | ⟨t, ts⟩
  · refine ⟨le_refl 0, by norm_num [analyzeDailyOverspending, emptyAnalysis], ?_⟩
    intro h; exact absurd rfl h
  · have hs : (analyzeDailyOverspending (t :: ts)).spendingScore =
        calculateSpendingScore (overspendingAlertsOf (t :: ts)) (warningAlertsOf (t :: ts))
          (withinBudgetOf (t :: ts)) (totalSpent (t :: ts)) := rfl
    refine ⟨?_, ?_, ?_⟩
    · rw [hs]; exact le_min (by norm_num) (le_max_left 0 _)
    · rw [hs]; exact min_le_left 100 _
    · intro _
      rw [hs]
      unfold calculateSpendingScore
      rw [ov_deduction_sum, warn_length_eq, wb_length_eq, underBudgetBonus_eq]

/-- Concrete one-row batch used as the witness input for C2. -/
def wC2df : List Txn := [{ date := ⟨3, 9⟩, description := "Corner cafe", category := "Food & Dining", amount := -60 }]

/-- Witness for C2 at a concrete non-empty batch. -/
theorem C2_spending_score_formula_witness :
    wC2df ≠ [] ∧
    (analyzeDailyOverspending wC2df).spendingScore =
      min 100 (max 0
        (100 - specOverspendingDeduction wC2df - (specWarningCount wC2df : ℤ) * 5
          + (specWithinCount wC2df : ℤ) * 3
          + (if totalSpent wC2df < totalBudget * (8 / 10) then
              min 15 ⌊(totalBudget - totalSpent wC2df) / totalBudget * 20⌋
            else 0))) :=
  ⟨by decide, (C2_spending_score_formula wC2df).2.2 (by decide)⟩

/-- C4: the empty transaction batch returns the canonical no-data result:
zero total spent, zero transaction and category counts, all three alert
lists empty, and exactly one no-data recommendation. -/
theorem C4_empty_batch_canonical :
    (analyzeDailyOverspending []).date = none ∧
    (analyzeDailyOverspending []).totalSpent = 0 ∧
    (analyzeDailyOverspending []).totalTransactions = 0 ∧
    (analyzeDailyOverspending []).categoriesAnalyzed = 0 ∧
    (analyzeDailyOverspending []).overspendingAlerts = [] ∧
    (analyzeDailyOverspending []).warningAlerts = [] ∧
    (analyzeDailyOverspending []).withinBudget = [] ∧
    (analyzeDailyOverspending []).recommendations = [RecItem.noData] :=
  ⟨rfl, rfl, rfl, rfl, rfl, rfl, rfl, rfl⟩


/-! ### C5: the generic-tip branches of `_generate_recommendations` are dead -/

lemma not_mem_map_of_ne {α : Type} (f : α → RecItem) (l : List α) (x : RecItem)
    (h : ∀ a, f a ≠ x) : x ∉ l.map f := fun hx => by
  rcases List.mem_map.mp hx with ⟨a, -, ha⟩
  exact h a ha

lemma determineRiskLevel_ne_tip_labels (s : ℤ) :
    determineRiskLevel s ≠ "High Risk" ∧ determineRiskLevel s ≠ "Medium Risk" := by
  unfold determineRiskLevel
  split_ifs <;> exact ⟨by decide, by decide⟩

lemma tip_not_mem_generate (ov warn within : List CatAnalysis) (s : ℤ) :
    RecItem.tipHigh ∉ generateRecommendations ov warn within (determineRiskLevel s) ∧
    RecItem.tipMedium ∉ generateRecommendations ov warn within (determineRiskLevel s) := by
  obtain ⟨h1, h2⟩ := determineRiskLevel_ne_tip_labels s
  unfold generateRecommendations
  rw [if_neg h1, if_neg h2]
  constructor <;>
  · intro hx
    rcases List.mem_append.mp hx with hx | hx
    · rcases List.mem_append.mp hx with hx | hx
      · rcases List.mem_append.mp hx with hx | hx
        · refine not_mem_map_of_ne _ ov _ (fun a => ?_) hx
          split_ifs <;> simp
        · exact not_mem_map_of_ne _ warn _ (fun a => by simp) hx
      · rcases within with - | ⟨x, xs⟩
        · simp at hx
        · simp at hx
    · simp at hx

/-- C5: the claim fails on the code. `_generate_recommendations` appends a
generic tip only when the risk level equals `'High Risk'` or
`'Medium Risk'`, but `_determine_risk_level` only ever returns
Excellent/Good/Fair/Poor/Critical, so no batch — in particular none whose
label indicates elevated risk (Poor/Critical) — ever receives the generic
tip: the tip branches are dead code. -/
theorem C5_generic_tip_dead_code :
    (∀ s : ℤ, determineRiskLevel s ≠ "High Risk" ∧ determineRiskLevel s ≠ "Medium Risk") ∧
    (∀ df : List Txn,
      RecItem.tipHigh ∉ (analyzeDailyOverspending df).recommendations ∧
      RecItem.tipMedium ∉ (analyzeDailyOverspending df).recommendations) := by
  refine ⟨determineRiskLevel_ne_tip_labels, fun df => ?_⟩
  rcases df with - | ⟨t, ts⟩
  · constructor <;> simp [analyzeDailyOverspending, emptyAnalysis]
  · exact tip_not_mem_generate _ _ _ _


/-! ### C7: order (in)dependence of `analyze_daily_overspending` -/

/-- The `%Y-%m-%d` date of the first row (`df['Date'].iloc[0]`, line 30). -/
def headDay (df : List Txn) : Option ℕ := df.head?.map (fun t => t.date.day)

lemma sortedKeys_perm_eq {α : Type} [DecidableEq α] [LinearOrder α] {l l' : List α}
    (hp : l.Perm l') : sortedKeys l = sortedKeys l' :=
  List.eq_of_perm_of_sorted
    ((List.perm_insertionSort _ _).trans (hp.dedup.trans (List.perm_insertionSort _ _).symm))
    (List.sorted_insertionSort _ _) (List.sorted_insertionSort _ _)

lemma categories_perm_eq {df df' : List Txn} (hp : df.Perm df') :
    categories df = categories df' :=
  sortedKeys_perm_eq ((hp.filter _).map _)

lemma categorySpending_perm_eq {df df' : List Txn} (hp : df.Perm df') (c : String) :
    categorySpending df c = categorySpending df' c :=
  (((hp.filter _).filter _).map _).sum_eq

lemma categoryTxCount_perm_eq {df df' : List Txn} (hp : df.Perm df') (c : String) :
    categoryTxCount df c = categoryTxCount df' c :=
  ((hp.filter _).filter _).length_eq

lemma totalSpent_perm_eq {df df' : List Txn} (hp : df.Perm df') :
    totalSpent df = totalSpent df' :=
  ((hp.filter _).map _).sum_eq

lemma catStatus_perm_eq {df df' : List Txn} (hp : df.Perm df') (c : String) :
    catStatus df c = catStatus df' c := by
  unfold catStatus percentageUsed
  rw [categorySpending_perm_eq hp]

lemma catAnalysis_perm_eq {df df' : List Txn} (hp : df.Perm df') (c : String) :
    catAnalysis df c = catAnalysis df' c := by
  unfold catAnalysis percentageUsed
  rw [categorySpending_perm_eq hp, categoryTxCount_perm_eq hp, catStatus_perm_eq hp]

lemma ovAlerts_perm_eq {df df' : List Txn} (hp : df.Perm df') :
    overspendingAlertsOf df = overspendingAlertsOf df' := by
  unfold overspendingAlertsOf configuredCats
  rw [categories_perm_eq hp,
    List.filter_congr (fun c _ => by rw [catStatus_perm_eq hp])]
  exact List.map_congr_left fun c _ => catAnalysis_perm_eq hp c

lemma warnAlerts_perm_eq {df df' : List Txn} (hp : df.Perm df') :
    warningAlertsOf df = warningAlertsOf df' := by
  unfold warningAlertsOf configuredCats
  rw [categories_perm_eq hp,
    List.filter_congr (fun c _ => by rw [catStatus_perm_eq hp])]
  exact List.map_congr_left fun c _ => catAnalysis_perm_eq hp c

lemma wbAlerts_perm_eq {df df' : List Txn} (hp : df.Perm df') :
    withinBudgetOf df = withinBudgetOf df' := by
  unfold withinBudgetOf configuredCats
  rw [categories_perm_eq hp,
    List.filter_congr (fun c _ => by rw [catStatus_perm_eq hp])]
  exact List.map_congr_left fun c _ => catAnalysis_perm_eq hp c

/-- Concrete rows on two different dates, used by the C7 counterexample. -/
def wC7a : Txn := { date := ⟨0, 0⟩, description := "Alpha mart", category := "Shopping", amount := -10 }

/-- Second row of the C7 counterexample batch. -/
def wC7b : Txn := { date := ⟨1, 0⟩, description := "Beta mart", category := "Shopping", amount := -10 }

/-- C7 fails as stated: swapping the rows of a two-date batch changes the
result, because the reported `date` is taken from the first row. -/
theorem C7_order_dependence_counterexample :
    [wC7a, wC7b].Perm [wC7b, wC7a] ∧
    analyzeDailyOverspending [wC7a, wC7b] ≠ analyzeDailyOverspending [wC7b, wC7a] := by
  refine ⟨List.Perm.swap wC7b wC7a [], fun h => ?_⟩
  have hd := congrArg Analysis.date h
  simp [analyzeDailyOverspending, wC7a, wC7b] at hd

/-- C7 amended: permuting the rows of a batch leaves every field of the
analysis unchanged except possibly the reported `date`, which is taken from
the first row; whenever the permutation preserves the first row's date (in
particular for the intended single-day batches) the whole result is equal. -/
theorem C7_perm_invariant (df df' : List Txn) (hp : df.Perm df')
    (hd : headDay df = headDay df') :
    analyzeDailyOverspending df = analyzeDailyOverspending df' := by
  rcases df with - | ⟨t, ts⟩
  · rw [hp.symm.eq_nil]
  · rcases df' with - | ⟨t', ts'⟩
    · exact absurd hp.eq_nil (by simp)
    · have hd0 : t.date.day = t'.date.day := by simpa [headDay] using hd
      simp only [analyzeDailyOverspending]
      rw [hd0, ovAlerts_perm_eq hp, warnAlerts_perm_eq hp, wbAlerts_perm_eq hp,
        totalSpent_perm_eq hp, categories_perm_eq hp,
        show (expensesOf (t :: ts)).length = (expensesOf (t' :: ts')).length from
          (hp.filter _).length_eq]

/-- Same-day rows used by the C7 witness. -/
def wC7c : Txn := { date := ⟨4, 9⟩, description := "Cafe latte", category := "Food & Dining", amount := -5 }

/-- Second same-day row used by the C7 witness. -/
def wC7d : Txn := { date := ⟨4, 20⟩, description := "Cinema", category := "Entertainment", amount := -7 }

/-- Witness for the amended C7 at a concrete same-day batch. -/
theorem C7_perm_invariant_witness :
    [wC7c, wC7d].Perm [wC7d, wC7c] ∧ headDay [wC7c, wC7d] = headDay [wC7d, wC7c] ∧
    analyzeDailyOverspending [wC7c, wC7d] = analyzeDailyOverspending [wC7d, wC7c] :=
  ⟨List.Perm.swap wC7d wC7c [], rfl,
    C7_perm_invariant _ _ (List.Perm.swap wC7d wC7c []) rfl⟩

/-! ### specialized_ai_roles.py: the five risk checks -/

/-- `Series.mean()` of a list of rationals. -/
def listMean (l : List ℚ) : ℚ := l.sum / l.length

/-- `Series.std()**2`: pandas sample variance (`ddof=1`). Only questioned at
lists with at least two (volatility: three) elements, where the
denominator is nonzero. -/
def sampleVar (l : List ℚ) : ℚ :=
  ((l.map (fun x => (x - listMean l) ^ 2)).sum) / ((l.length : ℚ) - 1)

/-- `int(100 * std / mean)` for variance `v = std^2` and `mean = m > 0`:
`⌊100·√v/m⌋ = ⌊√(10000·v/m²)⌋ = Nat.sqrt ⌊10000·v/m²⌋`, using that for a
nonnegative real `x`, `⌊√x⌋ = Nat.sqrt ⌊x⌋`. -/
def cvSeverityFloor (v m : ℚ) : ℕ := Nat.sqrt (Int.toNat ⌊10000 * v / m ^ 2⌋)

/-- Result of one risk check: the `is_risk`/`severity` pair together with
the factor label and recommendation strings it contributes when
triggered. Numeric interpolations of the f-string factor labels are
presentation only and are not modelled. -/
structure Check where
  isRisk : Bool
  severity : ℕ
  factor : String
  recs : List String
deriving DecidableEq, Repr

/-- Days with expense activity: keys of `groupby(Date.dt.date)`. -/
def activeDays (df : List Txn) : List ℕ :=
  sortedKeys ((expensesOf df).map (fun t => t.date.day))

/-- Total expense spend on one day. -/
def daySpendOf (df : List Txn) (d : ℕ) : ℚ :=
  (((expensesOf df).filter (fun t => t.date.day == d)).map Txn.absAmount).sum

/-- `RiskOfficerAnalysis._assess_spending_volatility` (lines 106-133).
`volatility > 100` is phrased on the variance as `v > 100^2` (both sides
nonnegative), and the severity floor via `cvSeverityFloor`. -/
def assessSpendingVolatility (df : List Txn) : Check :=
  if df.length < 7 then
    { isRisk := false, severity := 0, factor := "High spending volatility", recs := [] }
  else if (activeDays df).length < 3 then
    { isRisk := false, severity := 0, factor := "High spending volatility", recs := [] }
  else
    let totals := (activeDays df).map (daySpendOf df)
    let v := sampleVar totals
    let m := listMean totals
    { isRisk := decide (v > 100 ^ 2)
      severity := min 100 (if m > 0 then cvSeverityFloor v m else 0)
      factor := "High spending volatility"
      recs :=
        if v > 100 ^ 2 then
          ["Implement daily spending budgets to reduce volatility",
           "Set up spending alerts for unusual transaction amounts",
           "Create a weekly spending plan to smooth out daily variations"]
        else [] }

/-- `category_totals.idxmax()`: the first (sorted) category attaining the
maximal total. -/
def maxCategoryBy (df : List Txn) : String :=
  match categories df with
  | [] => ""
  | c :: cs =>
    cs.foldl (fun acc x => if categorySpending df x > categorySpending df acc then x else acc) c

/-- `category_totals.max()`; every category total is nonnegative, so the
fold with default 0 agrees with the pandas maximum on nonempty data. -/
def maxCategorySpending (df : List Txn) : ℚ :=
  ((categories df).map (categorySpending df)).foldr max 0

/-- `RiskOfficerAnalysis._assess_category_concentration` (lines 135-163).
`category_totals.sum()` equals the total expense spend, since each expense
belongs to exactly one category. -/
def assessCategoryConcentration (df : List Txn) : Check :=
  if df = [] then
    { isRisk := false, severity := 0, factor := "Over-concentrated", recs := [] }
  else if totalSpent df = 0 then
    { isRisk := false, severity := 0, factor := "Over-concentrated", recs := [] }
  else
    let maxPct := maxCategorySpending df / totalSpent df
    { isRisk := decide (maxPct > 4 / 10)
      severity := min 100 (Int.toNat ⌊maxPct * 150⌋)
      factor := "Over-concentrated in " ++ maxCategoryBy df
      recs :=
        if maxPct > 4 / 10 then
          ["Diversify spending away from " ++ maxCategoryBy df,
           "Review if high \x7bmax_category\x7d spending is necessary",
           "Set stricter limits for over-concentrated categories"]
        else [] }

/-- One entry of `trend_analysis['category_trends']`. -/
structure TrendData where
  direction : String
  slope : ℚ
  avgDaily : ℚ
deriving DecidableEq, Repr

/-- The `analysis_results` dict consumed by the risk officer, with the
`.get` defaults already applied (`net_cash_flow` and
`expense_to_income_ratio` default to 0, `category_trends` to empty). -/
structure AnalysisResults where
  categoryTrends : List (String × TrendData)
  netCashFlow : ℚ
  expenseToIncomeFrac : ℚ
deriving DecidableEq, Repr

/-- The `deteriorating_categories` accumulated by `_assess_spending_trends`. -/
def deterioratingCats (ar : AnalysisResults) : List (String × TrendData) :=
  ar.categoryTrends.filter (fun p => p.2.direction == "increasing" && decide (p.2.slope > 10))

/-- `RiskOfficerAnalysis._assess_spending_trends` (lines 165-198). The
accumulated slope is a sum of slopes each greater than 10, hence
nonnegative, so Python `int` is `Int.toNat ∘ Int.floor` here. -/
def assessSpendingTrends (ar : AnalysisResults) : Check :=
  let det := deterioratingCats ar
  let totalSlope : ℚ := (det.map (fun p => p.2.slope)).sum
  { isRisk := decide (2 ≤ det.length ∨ totalSlope > 50)
    severity := min 100 (Int.toNat ⌊totalSlope⌋)
    factor := "Negative spending trend"
    recs :=
      if 2 ≤ det.length ∨ totalSlope > 50 then
        ((det.take 3).map (fun p => "Address increasing spending in " ++ p.1)) ++
          ["Implement trend-based spending alerts",
           "Review monthly to catch negative trends early"]
      else [] }

/-- `RiskOfficerAnalysis._assess_liquidity_risk` (lines 200-230). -/
def assessLiquidityRisk (ar : AnalysisResults) : Check :=
  let sev := (if ar.netCashFlow < 0 then 50 else 0) +
    (if ar.expenseToIncomeFrac > 9 / 10 then
      Int.toNat ⌊(ar.expenseToIncomeFrac - 7 / 10) * 100⌋
    else 0)
  { isRisk := decide (ar.netCashFlow < 0 ∨ ar.expenseToIncomeFrac > 9 / 10)
    severity := min 100 sev
    factor := "Liquidity concern"
    recs :=
      if ar.netCashFlow < 0 ∨ ar.expenseToIncomeFrac > 9 / 10 then
        ["Immediate expense reduction needed - negative cash flow",
         "Build emergency fund to 3-6 months expenses",
         "Track cash flow weekly until positive",
         "Target expense share below 80 percent of income"]
      else [] }

/-- Weekend expense spend (`dt.weekday >= 5`, line 242). -/
def weekendSpend (df : List Txn) : ℚ :=
  (((expensesOf df).filter (fun t => decide (5 ≤ t.date.weekday))).map Txn.absAmount).sum

/-- Weekday expense spend (`dt.weekday < 5`, line 243). -/
def weekdaySpend (df : List Txn) : ℚ :=
  (((expensesOf df).filter (fun t => decide (t.date.weekday < 5))).map Txn.absAmount).sum

/-- Count of late-night expenses (`hour >= 22 or hour <= 6`, line 257);
pandas timestamps always expose `hour` (0 for date-only data). -/
def lateNightCount (df : List Txn) : ℕ :=
  ((expensesOf df).filter (fun t => decide (22 ≤ t.date.hour ∨ t.date.hour ≤ 6))).length

/-- Expense count on one day (`groupby(dt.date).size()`). -/
def dayTxCount (df : List Txn) (d : ℕ) : ℕ :=
  ((expensesOf df).filter (fun t => t.date.day == d)).length

/-- `(daily_transaction_counts > 5).sum()` (line 268). -/
def highTxDays (df : List Txn) : ℕ :=
  ((activeDays df).filter (fun d => decide (5 < dayTxCount df d))).length

/-- `RiskOfficerAnalysis._assess_behavioral_patterns` (lines 232-287). -/
def assessBehavioralPatterns (df : List Txn) : Check :=
  if df = [] then
    { isRisk := false, severity := 0, factor := "Behavioral pattern risk", recs := [] }
  else
    let we := weekendSpend df
    let wd := weekdaySpend df
    let p1 : Bool := decide (0 < we) && decide (0 < wd) && decide (we / (we + wd) > 4 / 10)
    let p2 : Bool := decide ((lateNightCount df : ℚ) > ((expensesOf df).length : ℚ) * (2 / 10))
    let p3 : Bool := decide ((highTxDays df : ℚ) > ((activeDays df).length : ℚ) * (3 / 10))
    { isRisk := p1 || p2 || p3
      severity := min 100 ((if p1 then 30 else 0) + (if p2 then 20 else 0) +
        (if p3 then 25 else 0))
      factor := "Behavioral pattern risk"
      recs :=
        if p1 || p2 || p3 then
          ["Implement 24-hour waiting period for non-essential purchases",
           "Use spending apps with real-time alerts",
           "Set specific times for shopping to avoid impulse buying",
           "Review triggers that lead to overspending patterns"]
        else [] }

/-! ### specialized_ai_roles.py: the composed risk assessment -/

/-- The `RiskAssessment` dataclass (lines 13-20). -/
structure RiskAssessment where
  riskLevel : String
  confidence : ℚ
  factors : List String
  recommendations : List String
  severityScore : ℕ
deriving DecidableEq, Repr

/-- `RiskOfficerAnalysis._determine_overall_risk_level` (lines 289-300). -/
def determineOverallRiskLevel (maxSeverity : ℕ) (riskFactorCount : ℕ) : String :=
  if 80 ≤ maxSeverity ∨ 4 ≤ riskFactorCount then "High Risk"
  else if 60 ≤ maxSeverity ∨ 3 ≤ riskFactorCount then "Moderate Risk"
  else if 40 ≤ maxSeverity ∨ 2 ≤ riskFactorCount then "Low Risk"
  else if 1 ≤ riskFactorCount then "Minimal Risk"
  else "Low Risk"

/-- The five checks of `assess_financial_risks`, in program order. -/
def riskChecks (df : List Txn) (ar : AnalysisResults) : List Check :=
  [assessSpendingVolatility df, assessCategoryConcentration df, assessSpendingTrends ar,
   assessLiquidityRisk ar, assessBehavioralPatterns df]

/-- `RiskOfficerAnalysis.assess_financial_risks` (lines 50-104): each
triggered check appends one factor, its recommendations and its severity;
the overall severity is `max(severity_scores) if severity_scores else 0`,
the level comes from `_determine_overall_risk_level`, and
`confidence = min(95, 60 + 10 * len(risk_factors))`. -/
def assessFinancialRisks (df : List Txn) (ar : AnalysisResults) : RiskAssessment :=
  let c1 := assessSpendingVolatility df
  let c2 := assessCategoryConcentration df
  let c3 := assessSpendingTrends ar
  let c4 := assessLiquidityRisk ar
  let c5 := assessBehavioralPatterns df
  let facts := (if c1.isRisk then [c1.factor] else []) ++ (if c2.isRisk then [c2.factor] else [])
    ++ (if c3.isRisk then [c3.factor] else []) ++ (if c4.isRisk then [c4.factor] else [])
    ++ (if c5.isRisk then [c5.factor] else [])
  let recs := (if c1.isRisk then c1.recs else []) ++ (if c2.isRisk then c2.recs else [])
    ++ (if c3.isRisk then c3.recs else []) ++ (if c4.isRisk then c4.recs else [])
    ++ (if c5.isRisk then c5.recs else [])
  let sevs := (if c1.isRisk then [c1.severity] else []) ++ (if c2.isRisk then [c2.severity] else [])
    ++ (if c3.isRisk then [c3.severity] else []) ++ (if c4.isRisk then [c4.severity] else [])
    ++ (if c5.isRisk then [c5.severity] else [])
  { riskLevel := determineOverallRiskLevel (sevs.foldr max 0) facts.length
    confidence := min 95 (60 + 10 * (facts.length : ℚ))
    factors := facts
    recommendations := recs
    severityScore := sevs.foldr max 0 }

/-- The checks that triggered (`is_risk`), in program order. -/
def triggeredChecks (df : List Txn) (ar : AnalysisResults) : List Check :=
  (riskChecks df ar).filter (fun c => c.isRisk)

/-- C3: for every input, the composed assessment has severity score equal
to the maximum severity over the triggered checks (0 when none trigger),
the stated High/Moderate/Low/Minimal risk-level cascade over severity and
triggered-factor count, and confidence `min(95, 60 + 10 * factors)`. -/
lemma five_sevs (a b c d e : Check) :
    ((if a.isRisk then [a.severity] else []) ++ (if b.isRisk then [b.severity] else [])
      ++ (if c.isRisk then [c.severity] else []) ++ (if d.isRisk then [d.severity] else [])
      ++ (if e.isRisk then [e.severity] else [])) =
    ([a, b, c, d, e].filter (fun x => x.isRisk)).map Check.severity := by
  cases ha : a.isRisk <;> cases hb : b.isRisk <;> cases hc : c.isRisk <;>
    cases hd : d.isRisk <;> cases he : e.isRisk <;>
    simp [List.filter, ha, hb, hc, hd, he]

lemma five_facts (a b c d e : Check) :
    ((if a.isRisk then [a.factor] else []) ++ (if b.isRisk then [b.factor] else [])
      ++ (if c.isRisk then [c.factor] else []) ++ (if d.isRisk then [d.factor] else [])
      ++ (if e.isRisk then [e.factor] else [])) =
    ([a, b, c, d, e].filter (fun x => x.isRisk)).map Check.factor := by
  cases ha : a.isRisk <;> cases hb : b.isRisk <;> cases hc : c.isRisk <;>
    cases hd : d.isRisk <;> cases he : e.isRisk <;>
    simp [List.filter, ha, hb, hc, hd, he]

lemma determineOverall_chain (s n : ℕ) :
    determineOverallRiskLevel s n =
      (if 80 ≤ s ∨ 4 ≤ n then "High Risk"
       else if 60 ≤ s ∨ 3 ≤ n then "Moderate Risk"
       else if 40 ≤ s ∨ 2 ≤ n then "Low Risk"
       else if n = 1 then "Minimal Risk"
       else "Low Risk") := by
  unfold determineOverallRiskLevel
  split_ifs <;> first | rfl | omega

theorem C3_risk_assessment_composition (df : List Txn) (ar : AnalysisResults) :
    (assessFinancialRisks df ar).severityScore =
      ((triggeredChecks df ar).map Check.severity).foldr max 0 ∧
    (assessFinancialRisks df ar).confidence =
      min 95 (60 + 10 * ((triggeredChecks df ar).length : ℚ)) ∧
    (assessFinancialRisks df ar).riskLevel =
      (if 80 ≤ (assessFinancialRisks df ar).severityScore ∨ 4 ≤ (triggeredChecks df ar).length
       then "High Risk"
       else if 60 ≤ (assessFinancialRisks df ar).severityScore ∨
           3 ≤ (triggeredChecks df ar).length then "Moderate Risk"
       else if 40 ≤ (assessFinancialRisks df ar).severityScore ∨
           2 ≤ (triggeredChecks df ar).length then "Low Risk"
       else if (triggeredChecks df ar).length = 1 then "Minimal Risk"
       else "Low Risk") := by
  have hsev : (assessFinancialRisks df ar).severityScore =
      ((triggeredChecks df ar).map Check.severity).foldr max 0 := by
    simp only [assessFinancialRisks, triggeredChecks, riskChecks]
    rw [five_sevs]
  have hconf : (assessFinancialRisks df ar).confidence =
      min 95 (60 + 10 * ((triggeredChecks df ar).length : ℚ)) := by
    simp only [assessFinancialRisks, triggeredChecks, riskChecks]
    rw [five_facts, List.length_map]
  have hrl : (assessFinancialRisks df ar).riskLevel =
      determineOverallRiskLevel (assessFinancialRisks df ar).severityScore
        (triggeredChecks df ar).length := by
    simp only [assessFinancialRisks, triggeredChecks, riskChecks]
    rw [five_sevs, five_facts, List.length_map]
  refine ⟨hsev, hconf, ?_⟩
  rw [hrl, determineOverall_chain]

lemma confidence_bounds (n : ℕ) :
    60 ≤ min (95 : ℚ) (60 + 10 * n) ∧ min (95 : ℚ) (60 + 10 * n) ≤ 95 :=
  ⟨le_min (by norm_num) (by have h := Nat.cast_nonneg (α := ℚ) n; linarith),
   min_le_left _ _⟩

/-- C10: for every input — including batches triggering no factor — the
confidence of the composed risk assessment lies in [60, 95]. -/
theorem C10_confidence_range (df : List Txn) (ar : AnalysisResults) :
    60 ≤ (assessFinancialRisks df ar).confidence ∧
    (assessFinancialRisks df ar).confidence ≤ 95 :=
  confidence_bounds _

/-- Single Saturday-noon expense: all spend is weekend spend. -/
def wC8a : Txn := { date := ⟨5, 12⟩, description := "Weekend golf", category := "Entertainment", amount := -50 }

/-- C8 fails as stated: in this batch the weekend share of expense spend is
100% > 40%, yet the behavioral check does not trigger, because the code
additionally requires weekday spend to be positive. -/
theorem C8_weekend_share_counterexample :
    0 < totalSpent [wC8a] ∧
    weekendSpend [wC8a] > (4 / 10) * totalSpent [wC8a] ∧
    (assessBehavioralPatterns [wC8a]).isRisk = false := by
  have habs : |(-50 : ℚ)| = 50 := by rw [abs_of_nonpos (by norm_num)]; norm_num
  refine ⟨?_, ?_, ?_⟩
  · norm_num [totalSpent, expensesOf, Txn.isExpense, Txn.absAmount, wC8a, habs]
  · norm_num [totalSpent, weekendSpend, expensesOf, Txn.isExpense, Txn.absAmount,
      DateT.weekday, wC8a, habs]
  · norm_num [assessBehavioralPatterns, weekendSpend, weekdaySpend, lateNightCount,
      highTxDays, activeDays, dayTxCount, expensesOf, Txn.isExpense, Txn.absAmount,
      DateT.weekday, sortedKeys, wC8a, habs, List.insertionSort, List.orderedInsert]

/-- C8 amended: whenever both weekend and weekday expense spend are
positive and the weekend share exceeds 40%, the behavioral check triggers
and its severity is at least the fixed weekend increment of 30. -/
theorem C8_weekend_pattern_amended (df : List Txn)
    (h1 : 0 < weekendSpend df) (h2 : 0 < weekdaySpend df)
    (h3 : weekendSpend df / (weekendSpend df + weekdaySpend df) > 4 / 10) :
    (assessBehavioralPatterns df).isRisk = true ∧
    30 ≤ (assessBehavioralPatterns df).severity := by
  have hne : df ≠ [] := by
    rintro rfl
    simp [weekendSpend, expensesOf] at h1
  constructor
  · unfold assessBehavioralPatterns
    rw [if_neg hne]
    simp [decide_eq_true h1, decide_eq_true h2, decide_eq_true h3]
  · unfold assessBehavioralPatterns
    rw [if_neg hne]
    simp only [decide_eq_true h1, decide_eq_true h2, decide_eq_true h3, Bool.true_and,
      Bool.and_self]
    refine le_min (by norm_num) ?_
    exact le_trans (Nat.le_add_right 30 _) (Nat.le_add_right _ _)

/-- Saturday-noon plus Monday-noon expenses for the C8 witness. -/
def wC8b : Txn := { date := ⟨7, 12⟩, description := "Monday groceries", category := "Food & Dining", amount := -10 }

/-- Witness for the amended C8 at a concrete two-row batch. -/
theorem C8_weekend_pattern_amended_witness :
    0 < weekendSpend [wC8a, wC8b] ∧ 0 < weekdaySpend [wC8a, wC8b] ∧
    weekendSpend [wC8a, wC8b] / (weekendSpend [wC8a, wC8b] + weekdaySpend [wC8a, wC8b]) >
      4 / 10 ∧
    ((assessBehavioralPatterns [wC8a, wC8b]).isRisk = true ∧
      30 ≤ (assessBehavioralPatterns [wC8a, wC8b]).severity) := by
  have habs : |(-50 : ℚ)| = 50 := by rw [abs_of_nonpos (by norm_num)]; norm_num
  have habs2 : |(-10 : ℚ)| = 10 := by rw [abs_of_nonpos (by norm_num)]; norm_num
  have e1 : weekendSpend [wC8a, wC8b] = 50 := by
    norm_num [weekendSpend, expensesOf, Txn.isExpense, Txn.absAmount, DateT.weekday,
      wC8a, wC8b, habs, habs2]
  have e2 : weekdaySpend [wC8a, wC8b] = 10 := by
    norm_num [weekdaySpend, expensesOf, Txn.isExpense, Txn.absAmount, DateT.weekday,
      wC8a, wC8b, habs, habs2]
  refine ⟨by rw [e1]; norm_num, by rw [e2]; norm_num, by rw [e1, e2]; norm_num, ?_⟩
  exact C8_weekend_pattern_amended [wC8a, wC8b] (by rw [e1]; norm_num)
    (by rw [e2]; norm_num) (by rw [e1, e2]; norm_num)

/-! ### transaction_retriever.py -/

/-- Python `str.strip()`: drop leading and trailing whitespace. -/
def pyStrip (s : String) : String :=
  ⟨((s.toList.dropWhile fun c => c.isWhitespace).reverse.dropWhile
      fun c => c.isWhitespace).reverse⟩

/-- `config.EXPENSE_CATEGORIES` (config.py lines 24-33). -/
def EXPENSE_CATEGORIES : List (String × List String) :=
  [("Food & Dining", ["restaurant", "food", "dining", "uber eats", "doordash", "grubhub",
      "starbucks", "coffee"]),
   ("Transportation", ["uber", "lyft", "gas", "parking", "metro", "bus", "taxi", "car"]),
   ("Shopping", ["amazon", "target", "walmart", "shopping", "retail", "store"]),
   ("Entertainment", ["netflix", "spotify", "movie", "theater", "gaming", "entertainment"]),
   ("Utilities", ["electric", "water", "internet", "phone", "cable", "utility"]),
   ("Healthcare", ["doctor", "pharmacy", "medical", "health", "hospital", "dental"]),
   ("Subscriptions", ["subscription", "monthly", "annual", "premium", "plus"]),
   ("Miscellaneous", [])]

/-- Python substring test `needle in hay` on character lists. -/
def charsContain (needle : List Char) : List Char → Bool
  | [] => needle.isEmpty
  | c :: rest => needle.isPrefixOf (c :: rest) || charsContain needle rest

/-- Python `needle in hay` for strings. -/
def strContains (hay needle : String) : Bool := charsContain needle.toList hay.toList

/-- `TransactionRetriever._categorize_transaction` (lines 100-117): keep a
non-empty provided category (stripped); otherwise return the first
configured category (skipping Miscellaneous) one of whose keywords occurs
in the lowercased description; otherwise Miscellaneous. A missing (NaN)
category cell is the empty string here. -/
def categorizeTransaction (category description : String) : String :=
  if pyStrip category ≠ "" then pyStrip category
  else
    (EXPENSE_CATEGORIES.findSome? (fun p =>
      if p.1 = "Miscellaneous" then none
      else if p.2.any (fun k => strContains description.toLower k.toLower) then some p.1
      else none)).getD "Miscellaneous"

/-- One raw sheet row (one entry of `raw_data[1:]`) with the results of the
pandas parsing steps recorded: `dateP` is the
`pd.to_datetime(..., errors='coerce')` result (`none` = NaT), `amountP`
the `pd.to_numeric` result after the `$`/`,` cleanup (`none` = NaN), and
`ncols` the raw row length. Raw sheet cells are strings, never NaN, so the
initial `dropna(..., how='all')` of `_clean_dataframe` never drops a row
and is not modelled. -/
structure RawRow where
  ncols : ℕ
  dateP : Option DateT
  description : String
  category : String
  amountP : Option ℚ
deriving DecidableEq, Repr

/-- Sort key of `sort_values('Date', ascending=False)`. -/
def DateT.key (d : DateT) : ℕ := d.day * 24 + d.hour

/-- `TransactionRetriever.process_transactions` plus `_clean_dataframe`
(lines 46-98): keep rows with at least 4 cells, drop rows whose date fails
to parse, drop rows whose amount is not numeric after cleaning, strip the
description, fill the category, and sort by date descending. The two
`dropna` filters followed by the column assignments are fused into one
`filterMap`. -/
def processTransactions (rows : List RawRow) : List Txn :=
  let withCols := rows.filter (fun r => decide (4 ≤ r.ncols))
  let cleaned := withCols.filterMap (fun r =>
    match r.dateP, r.amountP with
    | some d, some a =>
      some { date := d, description := pyStrip r.description,
             category := categorizeTransaction r.category (pyStrip r.description),
             amount := a }
    | _, _ => none)
  List.insertionSort (fun a b => b.date.key ≤ a.date.key) cleaned

/-- A raw row with valid date and amount but an all-whitespace description. -/
def wC6row : RawRow := { ncols := 5, dateP := some ⟨0, 0⟩, description := "   ", category := "Food & Dining", amountP := some (-5) }

/-- C6 fails as stated: a row whose description is blank (empty after
stripping) is NOT dropped — it survives cleaning with an empty
description, contradicting "every Transaction in its output has ... a
non-empty description". -/
theorem C6_empty_description_counterexample :
    processTransactions [wC6row] =
      [{ date := ⟨0, 0⟩, description := "", category := "Food & Dining", amount := -5 }] ∧
    (processTransactions [wC6row]).map Txn.description = [""] := by
  decide

/-- C6 amended: the normalizer keeps exactly the rows that have at least 4
cells, a parseable date and a numeric amount after cleaning (dropping the
others silently), and each kept row yields the transaction with that date
and amount and the stripped — possibly empty — description. -/
theorem C6_kept_rows_characterization (rows : List RawRow) (t : Txn) :
    t ∈ processTransactions rows ↔
      ∃ r ∈ rows, 4 ≤ r.ncols ∧ ∃ d a, r.dateP = some d ∧ r.amountP = some a ∧
        t = { date := d, description := pyStrip r.description,
              category := categorizeTransaction r.category (pyStrip r.description),
              amount := a } := by
  unfold processTransactions
  rw [(List.perm_insertionSort _ _).mem_iff, List.mem_filterMap]
  constructor
  · rintro ⟨r, hr, hmap⟩
    have hr2 := List.mem_filter.mp hr
    rcases hdp : r.dateP with - | d <;> rcases hap : r.amountP with - | a <;>
      rw [hdp, hap] at hmap
    · exact absurd hmap (by simp)
    · exact absurd hmap (by simp)
    · exact absurd hmap (by simp)
    · exact ⟨r, hr2.1, by simpa using hr2.2, d, a, hdp, hap,
        (Option.some.inj hmap).symm⟩
  · rintro ⟨r, hrm, hcols, d, a, hdp, hap, rfl⟩
    refine ⟨r, List.mem_filter.mpr ⟨hrm, by simpa using hcols⟩, ?_⟩
    rw [hdp, hap]

/-! ### specialized_ai_roles.py: subscription optimization -/

/-- numpy/pandas `round(q)` to an integer: nearest, ties to even. -/
def roundHalfEvenZ (q : ℚ) : ℤ :=
  let f := ⌊q⌋
  if q - f < 1 / 2 then f
  else if (1 : ℚ) / 2 < q - f then f + 1
  else if f % 2 = 0 then f else f + 1

/-- pandas `.round(2)`: `round(q*100)/100` with ties to even. -/
def round2 (q : ℚ) : ℚ := (roundHalfEvenZ (q * 100) : ℚ) / 100

/-- `round(std, 2)` computed exactly on the variance `v = std²` (`v ≥ 0`):
with `s = √(10000·v)` and `f = ⌊s⌋ = Nat.sqrt ⌊10000·v⌋` (for nonnegative
real `x`, `⌊√x⌋ = Nat.sqrt ⌊x⌋`), rounding `s` half-to-even compares `s`
against `f + 1/2`, i.e. `40000·v` against `(2f+1)²`. -/
def roundStd2 (v : ℚ) : ℚ :=
  let f : ℤ := Nat.sqrt (Int.toNat ⌊10000 * v⌋)
  (if 40000 * v < ((2 * f + 1) ^ 2 : ℚ) then f
   else if ((2 * f + 1) ^ 2 : ℚ) < 40000 * v then f + 1
   else if f % 2 = 0 then f else f + 1) / 100

/-- Keys of `expenses.groupby('Description')` (line 360). -/
def vendors (df : List Txn) : List String :=
  sortedKeys ((expensesOf df).map Txn.description)

/-- The `Abs_Amount` values aggregated for one vendor. -/
def vendorAmounts (df : List Txn) (v : String) : List ℚ :=
  ((expensesOf df).filter (fun t => t.description == v)).map Txn.absAmount

/-- The `count >= 2 and std_dev < mean_amount * 0.1` test of
`_identify_subscription_optimization` (line 372); `std_dev` and
`mean_amount` are read from the `.round(2)`-ed aggregation table
(line 363). -/
def subscriptionCandidate (df : List Txn) (v : String) : Bool :=
  decide (2 ≤ (vendorAmounts df v).length) &&
  decide (roundStd2 (sampleVar (vendorAmounts df v)) <
    round2 (listMean (vendorAmounts df v)) * (1 / 10))

/-- The `GrowthOpportunity` dataclass (lines 23-31); `vendor` records the
vendor interpolated into the templated `action_items`. -/
structure GrowthOpportunity where
  category : String
  opportunityType : String
  potentialValue : ℚ
  effortLevel : String
  timeframe : String
  vendor : String
deriving DecidableEq, Repr

/-- The opportunity emitted for one qualifying vendor (lines 380-393):
`potential_value = (mean * 4) * 0.3` on the rounded mean. -/
def subOpp (df : List Txn) (v : String) : GrowthOpportunity :=
  { category := "Subscription Management"
    opportunityType := "optimization"
    potentialValue := round2 (listMean (vendorAmounts df v)) * 4 * (3 / 10)
    effortLevel := "low"
    timeframe := "immediate"
    vendor := v }

/-- `GrowthStrategistAnalysis._identify_subscription_optimization`
(lines 350-395). -/
def identifySubscriptionOptimization (df : List Txn) : List GrowthOpportunity :=
  if df = [] then []
  else (vendors df).filterMap (fun v =>
    if subscriptionCandidate df v then some (subOpp df v) else none)

/-- The vendor a subscription opportunity came from. -/
lemma vendor_of_mem_subFilterMap (df : List Txn) (l : List String) (o : GrowthOpportunity)
    (ho : o ∈ l.filterMap (fun x =>
      if subscriptionCandidate df x then some (subOpp df x) else none)) :
    o.vendor ∈ l := by
  rcases List.mem_filterMap.mp ho with ⟨x, hx, hxo⟩
  by_cases h : subscriptionCandidate df x = true
  · rw [if_pos h] at hxo
    rw [← Option.some.inj hxo]
    exact hx
  · rw [if_neg h] at hxo
    exact absurd hxo (by simp)

lemma sub_filterMap_single (df : List Txn) (v : String) (l : List String)
    (hnd : l.Nodup) (hv : v ∈ l) (hc : subscriptionCandidate df v = true) :
    ((l.filterMap (fun x =>
        if subscriptionCandidate df x then some (subOpp df x) else none)).filter
      (fun o => o.vendor == v)) = [subOpp df v] := by
  induction l with
  | nil => cases hv
  | cons a t ih =>
    rcases List.mem_cons.mp hv with rfl | hvt
    · have hnotin : v ∉ t := (List.nodup_cons.mp hnd).1
      have htail : ((t.filterMap (fun x =>
          if subscriptionCandidate df x then some (subOpp df x) else none)).filter
            (fun o => o.vendor == v)) = [] := by
        rw [List.filter_eq_nil_iff]
        intro o ho hoa
        exact hnotin (beq_iff_eq.mp hoa ▸ vendor_of_mem_subFilterMap df t o ho)
      rw [List.filterMap_cons, if_pos hc, List.filter_cons]
      rw [if_pos (by simp [subOpp]), htail]
    · have hna : a ≠ v := fun h => (List.nodup_cons.mp hnd).1 (h ▸ hvt)
      have iht := ih (List.nodup_cons.mp hnd).2 hvt
      rw [List.filterMap_cons]
      by_cases hca : subscriptionCandidate df a = true
      · rw [if_pos hca, List.filter_cons,
          if_neg (by simp [subOpp, hna])]
        exact iht
      · rw [if_neg hca]
        exact iht

/-- C9 amended: every vendor with at least 2 expense occurrences passing
the (rounded) low-variance test yields exactly one subscription
opportunity, of type optimization, whose `potential_value` is
`0.3 × (round2(mean) × 4)` — the mean rounded to cents by the `.round(2)`
on the aggregation table, not the raw mean the claim states. -/
theorem C9_subscription_per_vendor (df : List Txn) (v : String)
    (hv : v ∈ vendors df) (hc : subscriptionCandidate df v = true) :
    ((identifySubscriptionOptimization df).filter (fun o => o.vendor == v)) =
      [subOpp df v] ∧
    (subOpp df v).opportunityType = "optimization" ∧
    (subOpp df v).potentialValue =
      round2 (listMean (vendorAmounts df v)) * 4 * (3 / 10) := by
  have hne : df ≠ [] := by
    rintro rfl
    rw [show vendors ([] : List Txn) = [] from rfl] at hv
    exact (List.not_mem_nil v) hv
  refine ⟨?_, rfl, rfl⟩
  unfold identifySubscriptionOptimization
  rw [if_neg hne]
  refine sub_filterMap_single df v (vendors df) ?_ hv hc
  exact ((List.perm_insertionSort _ _).nodup_iff).mpr (List.nodup_dedup _)

/-- First row of the C9 counterexample batch: vendor with amounts
10, 10, 11 whose mean 31/3 has more than two decimals. -/
def wC9a : Txn := { date := ⟨0, 12⟩, description := "Video plan", category := "Entertainment", amount := -10 }

/-- Second row of the C9 counterexample batch. -/
def wC9b : Txn := { date := ⟨1, 12⟩, description := "Video plan", category := "Entertainment", amount := -10 }

/-- Third row of the C9 counterexample batch. -/
def wC9c : Txn := { date := ⟨2, 12⟩, description := "Video plan", category := "Entertainment", amount := -11 }

/-- The C9 counterexample batch. -/
def wC9df : List Txn := [wC9a, wC9b, wC9c]

lemma wC9_expenses : expensesOf wC9df = wC9df := by
  have h10 : (-10 : ℚ) < 0 := by norm_num
  have h11 : (-11 : ℚ) < 0 := by norm_num
  simp [expensesOf, wC9df, wC9a, wC9b, wC9c, Txn.isExpense,
    decide_eq_true h10, decide_eq_true h11]

lemma wC9_amounts : vendorAmounts wC9df "Video plan" = [10, 10, 11] := by
  have habs10 : |(-10 : ℚ)| = 10 := by rw [abs_of_nonpos (by norm_num)]; norm_num
  have habs11 : |(-11 : ℚ)| = 11 := by rw [abs_of_nonpos (by norm_num)]; norm_num
  unfold vendorAmounts
  rw [wC9_expenses]
  simp [wC9df, wC9a, wC9b, wC9c, Txn.absAmount, habs10, habs11]

lemma wC9_mean : listMean [(10 : ℚ), 10, 11] = 31 / 3 := by
  norm_num [listMean]

lemma wC9_var : sampleVar [(10 : ℚ), 10, 11] = 1 / 3 := by
  norm_num [sampleVar, listMean]

lemma wC9_roundStd : roundStd2 (1 / 3) = 58 / 100 := by
  have hfl : (⌊(10000 : ℚ) * (1 / 3)⌋ : ℤ) = 3333 := by norm_num
  have hsq : Nat.sqrt 3333 = 57 := (Nat.eq_sqrt.mpr ⟨by norm_num, by norm_num⟩).symm
  have htn : Int.toNat 3333 = 3333 := rfl
  simp only [roundStd2, hfl, htn, hsq]
  norm_num

lemma wC9_roundMean : round2 (31 / 3) = 1033 / 100 := by
  have hfl : (⌊(31 : ℚ) / 3 * 100⌋ : ℤ) = 1033 := by norm_num
  simp only [round2, roundHalfEvenZ, hfl]
  norm_num

lemma wC9_candidate : subscriptionCandidate wC9df "Video plan" = true := by
  unfold subscriptionCandidate
  rw [wC9_amounts, wC9_var, wC9_mean, wC9_roundStd, wC9_roundMean]
  norm_num

lemma wC9_vendors : vendors wC9df = ["Video plan"] := by
  unfold vendors sortedKeys
  rw [wC9_expenses]
  simp [wC9df, wC9a, wC9b, wC9c, List.insertionSort, List.orderedInsert]

/-- C9 fails as stated: for the vendor "Video plan" with expense amounts
10, 10, 11 the claim's premise holds (3 occurrences, sample std below 10%
of the mean — stated on the variance, `var < (mean/10)²`), and exactly one
optimization opportunity is emitted, but its potential value is
`0.3 × (round2(31/3) × 4) = 3099/250`, not the claimed
`0.3 × ((31/3) × 4) = 62/5`. -/
theorem C9_rounded_mean_counterexample :
    2 ≤ (vendorAmounts wC9df "Video plan").length ∧
    sampleVar (vendorAmounts wC9df "Video plan") <
      (listMean (vendorAmounts wC9df "Video plan") * (1 / 10)) ^ 2 ∧
    identifySubscriptionOptimization wC9df = [subOpp wC9df "Video plan"] ∧
    (subOpp wC9df "Video plan").potentialValue = 3099 / 250 ∧
    listMean (vendorAmounts wC9df "Video plan") * 4 * (3 / 10) = 62 / 5 ∧
    (3099 / 250 : ℚ) ≠ 62 / 5 := by
  refine ⟨?_, ?_, ?_, ?_, ?_, by norm_num⟩
  · rw [wC9_amounts]; norm_num
  · rw [wC9_amounts, wC9_var, wC9_mean]; norm_num
  · have hne : wC9df ≠ [] := by simp [wC9df]
    unfold identifySubscriptionOptimization
    rw [if_neg hne, wC9_vendors]
    simp [List.filterMap_cons, wC9_candidate]
  · show round2 (listMean (vendorAmounts wC9df "Video plan")) * 4 * (3 / 10) = 3099 / 250
    rw [wC9_amounts, wC9_mean, wC9_roundMean]
    norm_num
  · rw [wC9_amounts, wC9_mean]; norm_num

/-- One Netflix charge at $12.99, used by the C9 witness. -/
def wC9n1 : Txn := { date := ⟨0, 12⟩, description := "Netflix", category := "Entertainment", amount := -(1299 / 100) }

/-- Second Netflix charge. -/
def wC9n2 : Txn := { date := ⟨1, 12⟩, description := "Netflix", category := "Entertainment", amount := -(1299 / 100) }

/-- Third Netflix charge. -/
def wC9n3 : Txn := { date := ⟨2, 12⟩, description := "Netflix", category := "Entertainment", amount := -(1299 / 100) }

/-- The Netflix witness batch of the spec scenario. -/
def wC9ndf : List Txn := [wC9n1, wC9n2, wC9n3]

lemma wC9n_expenses : expensesOf wC9ndf = wC9ndf := by
  have hneg : (-(1299 / 100) : ℚ) < 0 := by norm_num
  simp [expensesOf, wC9ndf, wC9n1, wC9n2, wC9n3, Txn.isExpense, decide_eq_true hneg]

lemma wC9n_amounts :
    vendorAmounts wC9ndf "Netflix" = [1299 / 100, 1299 / 100, 1299 / 100] := by
  have habs : |(-(1299 / 100) : ℚ)| = 1299 / 100 := by
    rw [abs_of_nonpos (by norm_num)]; norm_num
  unfold vendorAmounts
  rw [wC9n_expenses]
  simp [wC9ndf, wC9n1, wC9n2, wC9n3, Txn.absAmount, habs]

lemma wC9n_mean : listMean [(1299 / 100 : ℚ), 1299 / 100, 1299 / 100] = 1299 / 100 := by
  norm_num [listMean]

lemma wC9n_var : sampleVar [(1299 / 100 : ℚ), 1299 / 100, 1299 / 100] = 0 := by
  norm_num [sampleVar, listMean]

lemma wC9n_roundStd : roundStd2 0 = 0 := by
  simp only [roundStd2]
  norm_num

lemma wC9n_roundMean : round2 (1299 / 100) = 1299 / 100 := by
  have hfl : (⌊(1299 : ℚ) / 100 * 100⌋ : ℤ) = 1299 := by norm_num
  simp only [round2, roundHalfEvenZ, hfl]
  norm_num

lemma wC9n_vendors : vendors wC9ndf = ["Netflix"] := by
  unfold vendors sortedKeys
  rw [wC9n_expenses]
  simp [wC9ndf, wC9n1, wC9n2, wC9n3, List.insertionSort, List.orderedInsert]

lemma wC9n_candidate : subscriptionCandidate wC9ndf "Netflix" = true := by
  unfold subscriptionCandidate
  rw [wC9n_amounts, wC9n_var, wC9n_mean, wC9n_roundStd, wC9n_roundMean]
  norm_num

/-- Witness for the amended C9 at the spec's Netflix scenario: three $12.99
charges yield exactly one optimization opportunity whose potential value
is `0.3 × (12.99 × 4)` (here the rounding is the identity). -/
theorem C9_subscription_per_vendor_witness :
    "Netflix" ∈ vendors wC9ndf ∧ subscriptionCandidate wC9ndf "Netflix" = true ∧
    (((identifySubscriptionOptimization wC9ndf).filter
        (fun o => o.vendor == "Netflix")) = [subOpp wC9ndf "Netflix"] ∧
      (subOpp wC9ndf "Netflix").opportunityType = "optimization" ∧
      (subOpp wC9ndf "Netflix").potentialValue =
        round2 (listMean (vendorAmounts wC9ndf "Netflix")) * 4 * (3 / 10)) ∧
    (subOpp wC9ndf "Netflix").potentialValue = (3 / 10) * (1299 / 100 * 4) := by
  have hv : "Netflix" ∈ vendors wC9ndf := by rw [wC9n_vendors]; exact List.mem_singleton.mpr rfl
  refine ⟨hv, wC9n_candidate, C9_subscription_per_vendor wC9ndf "Netflix" hv wC9n_candidate, ?_⟩
  show round2 (listMean (vendorAmounts wC9ndf "Netflix")) * 4 * (3 / 10) = 3 / 10 * (1299 / 100 * 4)
  rw [wC9n_amounts, wC9n_mean, wC9n_roundMean]
  norm_num

end TransactionAnalyzer
